import Mathlib
set_option maxRecDepth 16000

/-!
# Verification of the AI image-generation client of `web-storyboard`

Shallow embedding of the AI image-generation service layer
(`src/unnamed/part_009`, the `aiImageService` module) and of
`calculateImageSize` from `src/src/utils/imageUtils.ts`.

Modelling conventions:
* JS strings are Lean `String`s (all inputs of interest are ASCII, where
  JS UTF-16 lengths and Lean char counts agree).
* JS numbers are exact rationals (`ℚ`); `Math.round` is `⌊x + 1/2⌋`,
  which agrees with JS round-half-up on the values arising here.
* Platform primitives (`fetch`, `JSON.parse`, `FileReader.readAsDataURL`,
  `new URL`) are oracles: network responses are supplied as explicit data,
  `JSON.parse` of SSE frames is a parameter `String → Option JsonData`.
* `throw new Error e` is `Except.error`; JS `try`/`catch` is modelled by
  explicit propagation, including the places where the source catches and
  swallows its own exceptions.
-/

deriving instance DecidableEq for Except

namespace Storyboard

/-- Substring search on character lists (structural, kernel-reducible). -/
def hasSubList : List Char → List Char → Bool
  | _, [] => true
  | [], _ :: _ => false
  | c :: rest, p :: ps => List.isPrefixOf (p :: ps) (c :: rest) || hasSubList rest (p :: ps)

/-- JS `String.prototype.includes pat`. -/
def containsSub (s pat : String) : Bool :=
  hasSubList s.data pat.data

/-- JS `String.prototype.startsWith pre`. -/
def startsW (s pre : String) : Bool :=
  pre.data.isPrefixOf s.data

/-- JS `String.prototype.endsWith suf`. -/
def endsW (s suf : String) : Bool :=
  suf.data.isSuffixOf s.data

/-- JS whitespace (the ASCII part, enough for this subsystem). -/
def isJsWs (c : Char) : Bool :=
  c = ' ' || c = '\t' || c = '\n' || c = '\r' || c = '\x0b' || c = '\x0c'

/-- JS `String.prototype.trim`. -/
def trimS (s : String) : String :=
  String.mk (((s.data.dropWhile isJsWs).reverse.dropWhile isJsWs).reverse)

/-- JS `String.prototype.substring n` (drop the first `n` chars). -/
def dropS (s : String) (n : Nat) : String :=
  String.mk (s.data.drop n)

/-- JS `split('\n')` (keeps empty trailing piece). -/
def splitNl : List Char → List (List Char)
  | [] => [[]]
  | c :: rest =>
    let r := splitNl rest
    if c = '\n' then [] :: r
    else
      match r with
      | h :: t => (c :: h) :: t
      | [] => [[c]]

/-- JS `Math.round` on an exact rational: round half toward `+∞`. -/
def jsRound (x : ℚ) : ℤ := ⌊x + 1/2⌋

/-! ## Provider Classifier

`generateAIImage` (part_009 lines 253–254) detects the wire protocol
purely from the endpoint string:

    const isGeminiAPI = endpoint.includes('/v1beta/models/') && endpoint.includes(':generateContent');
    const isNanoBananaAPI = endpoint.includes('/v1/draw/');

and then branches `if (isGeminiAPI) … else if (isNanoBananaAPI) … else …`,
so the Gemini test takes precedence. -/

/-- The three wire protocols of the spec's `Provider` enum
(`ASYNC_TASK` is the Nano-Banana submit-then-poll shape). -/
inductive Provider where
  | GEMINI
  | ASYNC_TASK
  | GENERIC
deriving Repr, DecidableEq

/-- The endpoint-shape conditions, exactly as tested in the source. -/
def isGeminiEndpoint (endpoint : String) : Bool :=
  containsSub endpoint "/v1beta/models/" && containsSub endpoint ":generateContent"

/-- The async-task (Nano Banana) endpoint condition of the source. -/
def isNanoEndpoint (endpoint : String) : Bool :=
  containsSub endpoint "/v1/draw/"

/-- Provider classification: the `if / else if / else` cascade of
part_009 lines 253–254 and 331/482/655. -/
def classify (endpoint : String) : Provider :=
  if isGeminiEndpoint endpoint then .GEMINI
  else if isNanoEndpoint endpoint then .ASYNC_TASK
  else .GENERIC

/-! ## Image pixel size (`calculateImageSize`, imageUtils.ts lines 219–246)

    const [wStr, hStr] = aspectRatio.split(':');
    const w = parseFloat(wStr || '16'); const h = parseFloat(hStr || '9');
    const ratio = w / h;
    if (w >= h) { width = baseSize; height = Math.round(baseSize / ratio); }
    else        { height = baseSize; width = Math.round(baseSize * ratio); }
    width = Math.round(width / 8) * 8;  height = Math.round(height / 8) * 8;

Modelled over the parsed pair `(w, h)` of the `"W:H"` string. -/

/-- The function `calculateImageSize` from `imageUtils.ts`, over exact rationals. -/
def calculateImageSize (w h base : ℚ) : ℤ × ℤ :=
  let fitW : ℚ := if h ≤ w then base else (jsRound (base * (w / h)) : ℤ)
  let fitH : ℚ := if h ≤ w then (jsRound (base / (w / h)) : ℤ) else base
  (jsRound (fitW / 8) * 8, jsRound (fitH / 8) * 8)

/-- The larger-dimension-fitted (unrounded) width for base `base`. -/
def fittedWidth (w h base : ℚ) : ℚ :=
  if h ≤ w then base else base * (w / h)

/-- The larger-dimension-fitted (unrounded) height for base `base`. -/
def fittedHeight (w h base : ℚ) : ℚ :=
  if h ≤ w then base / (w / h) else base

/-! ## Image Normalizer (`convertToBase64`, part_009 lines 1128–1185)

The input is a plain string; the branch is chosen by its prefix
(`data:` / `blob:` / anything else = remote URL).  `fetch` +
`imageToBase64` (the `FileReader.readAsDataURL` pipeline of
`imageUtils.ts`) are an oracle producing the fetched blob's MIME type and
bytes; `readAsDataURL` assembles `data:<mime>;base64,<payload>`. -/

/-- The match of `^data:([^;]+);base64,(.+)$` (JS, no `s`/`m` flags):
`some (mime, payload)` where `mime` is the (non-empty, `;`-free) text
between `data:` and the first `;`, followed literally by `base64,`, and
`payload` is the non-empty remainder containing no line terminator. -/
def matchDataUrl (s : String) : Option (String × String) :=
  if startsW s "data:" then
    let rest := s.data.drop 5
    let mime := rest.takeWhile (· ≠ ';')
    match rest.dropWhile (· ≠ ';') with
    | ';' :: rem =>
      if mime ≠ [] && "base64,".data.isPrefixOf rem then
        let payload := rem.drop 7
        if payload ≠ [] && !(payload.any fun c => c = '\n' || c = '\r') then
          some (String.mk mime, String.mk payload)
        else none
      else none
    | _ => none
  else none

/-- The match of `^data:image\/[^;]+;base64,(.+)$` (the validation regex
inside `convertToBase64`): the payload, when the MIME type moreover starts
with `image/` and has at least one character after it. -/
def matchImageDataUrl (s : String) : Option String :=
  match matchDataUrl s with
  | some (m, p) => if startsW m "image/" && m.length ≥ 7 then some p else none
  | none => none

/-- Function `extractBase64` of the Gemini branch (part_009 lines 333–341):
split a data URL into `(mimeType, data)`, defaulting to
`('image/png', dataUrl)` when the shape does not match. -/
def extractBase64 (dataUrl : String) : String × String :=
  if startsW dataUrl "data:" then
    match matchDataUrl dataUrl with
    | some (m, p) => (m, p)
    | none => ("image/png", dataUrl)
  else ("image/png", dataUrl)

/-- Function `extractPureBase64` of the Nano-Banana branch (part_009 lines
485–494): strip the `data:…;base64,` prefix, else return the input. -/
def extractPureBase64 (dataUrl : String) : String :=
  if startsW dataUrl "data:" then
    match matchDataUrl dataUrl with
    | some (_, p) => p
    | none => dataUrl
  else dataUrl

/-- The base64 alphabet. -/
def base64Chars : List Char :=
  "ABCDEFGHIJKLMNOPQRSTUVWXYZabcdefghijklmnopqrstuvwxyz0123456789+/".toList

/-- The base64 digit for a 6-bit value. -/
def b64c (n : Nat) : Char := base64Chars.getD n 'A'

/-- Standard base64 of a byte list (with `=` padding), as produced by
`FileReader.readAsDataURL`. -/
def base64Encode : List Nat → String
  | [] => ""
  | [a] => String.mk [b64c (a / 4), b64c (a % 4 * 16), '=', '=']
  | [a, b] => String.mk [b64c (a / 4), b64c (a % 4 * 16 + b / 16), b64c (b % 16 * 4), '=']
  | a :: b :: c :: rest =>
    String.mk [b64c (a / 4), b64c (a % 4 * 16 + b / 16), b64c (b % 16 * 4 + c / 64), b64c (c % 64)]
      ++ base64Encode rest

/-- Number of bytes a well-formed base64 payload decodes to. -/
def base64DecodedLength (payload : String) : Nat :=
  payload.length / 4 * 3 - (payload.toList.reverse.takeWhile (· = '=')).length

/-- Result of `FileReader.readAsDataURL` on a blob of type `mime`. -/
def dataUrlOf (mime : String) (bytes : List Nat) : String :=
  "data:" ++ mime ++ ";base64," ++ base64Encode bytes

/-- The failure modes of `convertToBase64` (each a distinct
`throw new Error(…)` in the source). -/
inductive NormError where
  /-- Thrown as 图片数据为空: empty input -/
  | emptyInput
  /-- Thrown as Base64图片数据太短: data URL shorter than 100 chars -/
  | tooShort
  /-- Thrown as Base64图片格式无效: regex mismatch or payload under 50 chars -/
  | badFormat
  /-- blob / URL fetch failed or returned non-OK -/
  | fetchFailed
  /-- fetched blob has size 0 -/
  | emptyBlob
  /-- converted data URL shorter than 100 characters -/
  | encodeFailed
deriving Repr, DecidableEq

/-- The platform oracle for `convertToBase64`: fetching a `blob:` or
remote URL and reading it through `imageToBase64` yields a MIME type and
the blob's bytes (`none` = network failure / non-OK response). -/
structure FetchEnv where
  fetchBlob : String → Option (String × List Nat)

/-- Function `convertToBase64` (part_009 lines 1128–1185).  The `blob:` branch and
the plain-URL branch of the source are identical up to error messages. -/
def convertToBase64 (env : FetchEnv) (image : String) : Except NormError String :=
  if image = "" || trimS image = "" then .error .emptyInput
  else if startsW image "data:" then
    if image.length < 100 then .error .tooShort
    else
      match matchImageDataUrl image with
      | some p => if p.length < 50 then .error .badFormat else .ok image
      | none => .error .badFormat
  else
    match env.fetchBlob image with
    | none => .error .fetchFailed
    | some (mime, bytes) =>
      if bytes.length = 0 then .error .emptyBlob
      else
        let b64 := dataUrlOf mime bytes
        if b64.length < 100 then .error .encodeFailed
        else .ok b64

/-! ## Request Builder (part_009 lines 331–699)

Three provider bodies; image slots in source order
`storyboard, role?, scene?`, each reference image subject to the length
filters exactly as written in the source. -/

/-- An element of the Gemini `parts` array. -/
inductive GeminiPart where
  | text (s : String)
  | inlineData (mimeType data : String)
deriving Repr, DecidableEq

/-- The Gemini `parts` array (part_009 lines 369–440): prompt text, the
storyboard image, then the role and scene images — each reference image
only when its extracted payload is truthy and has length ≥ 100. -/
def buildGeminiParts (fullPrompt storyboardBase64 : String)
    (roleBase64 sceneBase64 : Option String) : List GeminiPart :=
  let sd := extractBase64 storyboardBase64
  let parts : List GeminiPart := [.text fullPrompt, .inlineData sd.1 sd.2]
  let parts :=
    match roleBase64 with
    | some r =>
      let rd := extractBase64 r
      if rd.2 ≠ "" && rd.2.length ≥ 100 then parts ++ [.inlineData rd.1 rd.2] else parts
    | none => parts
  match sceneBase64 with
  | some sc =>
    let cd := extractBase64 sc
    if cd.2 ≠ "" && cd.2.length ≥ 100 then parts ++ [.inlineData cd.1 cd.2] else parts
  | none => parts

/-- The images of a Gemini `parts` array, in order. -/
def geminiImages (parts : List GeminiPart) : List (String × String) :=
  parts.filterMap fun p =>
    match p with
    | .inlineData m d => some (m, d)
    | .text _ => none

/-- The Nano-Banana `urls` array (part_009 lines 521–593): storyboard
first, then role and scene, each reference image only when its pure
base64 is truthy and has length ≥ 100 (including the final
`urls.length > 0 ? urls : ['base64']` fallback of line 593). -/
def buildNanoUrls (storyboardBase64 : String)
    (roleBase64 sceneBase64 : Option String) : List String :=
  let urls : List String := [extractPureBase64 storyboardBase64]
  let urls :=
    match roleBase64 with
    | some r =>
      let rp := extractPureBase64 r
      if rp ≠ "" && rp.length ≥ 100 then urls ++ [rp] else urls
    | none => urls
  let urls :=
    match sceneBase64 with
    | some sc =>
      let sp := extractPureBase64 sc
      if sp ≠ "" && sp.length ≥ 100 then urls ++ [sp] else urls
    | none => urls
  if urls.length > 0 then urls else ["base64"]

/-- The image fields of the OpenAI-style body, in their insertion order
`image`, `reference_image`, `scene_image` (part_009 lines 664–685). -/
structure GenericBody where
  image : String
  reference_image : Option String
  scene_image : Option String
deriving Repr, DecidableEq

/-- The OpenAI-style body's image slots (part_009 lines 664–685): the
reference images are included only when the full data-URL string has
length ≥ 100. -/
def buildGenericBody (storyboardBase64 : String)
    (roleBase64 sceneBase64 : Option String) : GenericBody :=
  { image := storyboardBase64
    reference_image :=
      match roleBase64 with
      | some r => if r ≠ "" && r.length ≥ 100 then some r else none
      | none => none
    scene_image :=
      match sceneBase64 with
      | some sc => if sc ≠ "" && sc.length ≥ 100 then some sc else none
      | none => none }

/-- The images of the OpenAI-style body in field order. -/
def genericImageList (b : GenericBody) : List String :=
  [b.image] ++ b.reference_image.toList ++ b.scene_image.toList

/-! ## The generation run (part_009 lines 701–1123)

A faithful model of the retry loop, SSE stream reader, async task poller
and progress reporting of `generateAIImage`, for a call that supplies an
`onProgress` callback.  The HTTP layer is an oracle: the `k`-th dispatch
`fetch` yields `dispatches[k]`, the `k`-th poll `fetch` yields
`polls[k]` (an exhausted oracle behaves as a non-OK response).
`JSON.parse` of SSE frames is the parameter `parse`.  The extraction
cascade of lines 1024–1084 is reflected in the `image` field of
`JsonData`: the value the cascade would find in that body, `none` when
it finds nothing. -/

/-- The fields of a parsed JSON body that the control flow inspects. -/
structure JsonData where
  status : Option String
  taskId : Option String
  image : Option String
  prog : Option ℚ
deriving Repr, DecidableEq

/-- JS truthiness of an optional string field (empty string is falsy). -/
def truthyS : Option String → Option String
  | some s => if s = "" then none else some s
  | none => none

/-- The terminal SSE statuses of lines 800–801 / 825–826. -/
def isTerminalStatus (st : Option String) : Bool :=
  st = some "succeeded" || st = some "completed" || st = some "failed" || st = some "error"

/-- The typed errors of the run (each a distinct `throw` in the source). -/
inductive GenError where
  /-- API认证失败 (HTTP 401, line 747) -/
  | auth
  /-- API调用失败 (other non-OK statuses, line 757) -/
  | callFailed
  /-- Thrown as 无法从SSE流中解析数据 (line 832) -/
  | sseNoData
  /-- Thrown as API返回的不是JSON格式 (line 853) -/
  | notJson
  /-- Thrown as 任务失败 (status failed/error, lines 883 / 959) -/
  | taskFailed
  /-- Thrown as 任务正在处理中 when no task id / not Nano Banana (line 982) -/
  | needsPolling
  /-- Thrown as 任务处理超时, carrying the task id (line 973) -/
  | timeout (taskId : String)
  /-- Thrown as 无法从API响应中提取生成的图片 (line 1083) -/
  | noImage
  /-- Thrown as 图片下载失败 (line 1098) -/
  | downloadFailed
  /-- Raised when `fetch` itself rejected (network failure) -/
  | netErr
  /-- Thrown as 生成失败：达到最大重试次数 (line 1122) -/
  | exhausted
deriving Repr, DecidableEq

/-- One dispatch response of the HTTP oracle. -/
inductive DispatchResp where
  | netErr
  | httpErr (status : Nat)
  | okSse (chunks : List String)
  | okNonJson
  | okJson (d : JsonData)

/-- One poll response of the HTTP oracle. -/
inductive PollResp where
  | notOk
  | fetchErr
  | okPoll (status : Option String) (image : Option String)

/-- The observable log of a run: the `onProgress` percentages in order,
and the number of dispatch fetches, poll fetches, and poll-loop entries. -/
structure RunLog where
  trace : List ℚ
  requests : Nat
  pollRequests : Nat
  pollLoopRuns : Nat
deriving Repr, DecidableEq

/-- Record one `onProgress` percentage. -/
def emitP (p : ℚ) (g : RunLog) : RunLog :=
  { g with trace := g.trace ++ [p] }

/-- The result object of a successful run (lines 1106–1109). -/
structure GenResult where
  image : String
  model : String
deriving Repr, DecidableEq

/-! ### Stream Reader (lines 763–835) -/

/-- The extra parse of the leftover buffer once a terminal event was seen
(lines 802–813); a parse failure keeps the terminal event. -/
def sseTerminalHit (parse : String → Option JsonData) (buffer : List Char)
    (lastData : JsonData) : JsonData :=
  let remaining := trimS (String.mk buffer)
  if startsW remaining "data: " then
    match parse (trimS (dropS remaining 6)) with
    | some j => j
    | none => lastData
  else lastData

/-- The `for (const line of lines)` loop of lines 786–822: parse each
`data: ` line, keep the last parsed event, emit its progress, and break
on a terminal status (parse failures are skipped). -/
def sseLines (parse : String → Option JsonData) :
    List (List Char) → List Char → Option JsonData → RunLog →
    Option JsonData × RunLog
  | [], _, lastData, g => (lastData, g)
  | l :: ls, buffer, lastData, g =>
    let line := String.mk l
    if startsW line "data: " then
      let jsonStr := trimS (dropS line 6)
      if jsonStr ≠ "" then
        match parse jsonStr with
        | some ev =>
          let g := match ev.prog with
            | some p => emitP (10 + p * (4/5)) g
            | none => g
          if isTerminalStatus ev.status then
            (some (sseTerminalHit parse buffer ev), g)
          else
            sseLines parse ls buffer (some ev) g
        | none => sseLines parse ls buffer lastData g
      else sseLines parse ls buffer lastData g
    else sseLines parse ls buffer lastData g

/-- The `while (true) { reader.read() … }` loop of lines 775–829: append
the chunk to the buffer, split on newlines keeping the trailing partial
line, process the complete lines, and stop once the last event is
terminal or the transport is done. -/
def sseChunks (parse : String → Option JsonData) :
    List String → List Char → Option JsonData → RunLog →
    Option JsonData × RunLog
  | [], _, lastData, g => (lastData, g)
  | c :: rest, buffer, lastData, g =>
    let pieces := splitNl (buffer ++ c.data)
    let newBuffer := (pieces.getLast?).getD []
    match sseLines parse pieces.dropLast newBuffer lastData g with
    | (ld, g) =>
      if (match ld with | some d => isTerminalStatus d.status | none => false) then
        (ld, g)
      else sseChunks parse rest newBuffer ld g

/-- Function `readStream`: the SSE branch of the response handler.  Fails only
when no event at all was parsed (line 831). -/
def readSSE (parse : String → Option JsonData) (chunks : List String)
    (g : RunLog) : Except GenError JsonData × RunLog :=
  match sseChunks parse chunks [] none g with
  | (some d, g) => (.ok d, g)
  | (none, g) => (.error .sseNoData, g)

/-! ### Async Task Poller (lines 898–979) -/

/-- Data-URL prefixing of a polled result image (lines 941–945). -/
def prefixPoll (i : String) : String :=
  if !(startsW i "data:") && !(startsW i "http") && !(startsW i "blob:") then
    "data:image/png;base64," ++ i
  else i

/-- Data-URL prefixing in the completed-status block (lines 1009–1019). -/
def prefixDone (i : String) : String :=
  if startsW i "http://" || startsW i "https://" then i
  else if !(startsW i "data:") && !(startsW i "blob:") then
    "data:image/png;base64," ++ i
  else i

/-- The polling loop of lines 902–969: up to 30 attempts, 2 s apart; a
non-OK or failed poll fetch is swallowed and polling continues; a
`completed`/`success` response with an image ends the loop with that
image; a `failed`/`error` response is rethrown.  Returns `some image` on
completion, `none` when the 30-attempt budget ran out. -/
def runPolls (polls : List PollResp) (fuel attempt : Nat) (g : RunLog) :
    Except GenError (Option String) × List PollResp × RunLog :=
  match fuel with
  | 0 => (.ok none, polls, g)
  | fuel + 1 =>
    let g := emitP (50 + min 30 ((attempt : ℚ) / 30 * 30)) g
    let next := match polls with
      | [] => (PollResp.notOk, ([] : List PollResp))
      | r :: rest => (r, rest)
    let resp := next.1
    let polls := next.2
    let g := { g with pollRequests := g.pollRequests + 1 }
    match resp with
    | .notOk => runPolls polls fuel (attempt + 1) g
    | .fetchErr => runPolls polls fuel (attempt + 1) g
    | .okPoll st img =>
      if st = some "completed" ∨ st = some "success" then
        match truthyS img with
        | some i => (.ok (some (prefixPoll i)), polls, g)
        | none => runPolls polls fuel (attempt + 1) g
      else if st = some "failed" ∨ st = some "error" then
        (.error .taskFailed, polls, g)
      else runPolls polls fuel (attempt + 1) g

/-- The completed-status extraction block of lines 992–1021. -/
def completedBlock (d : JsonData) : JsonData :=
  match truthyS d.status with
  | some st =>
    if st = "completed" ∨ st = "success" ∨ st = "succeeded" then
      match truthyS d.image with
      | some i => { d with image := some (prefixDone i) }
      | none => d
    else d
  | none => d

/-- The `if (data.status)` block of lines 868–1022: terminal failure,
pending (with polling for Nano Banana, else a hard error), and the
completed-status extraction. -/
def processStatus (isNano : Bool) (d : JsonData) (polls : List PollResp)
    (g : RunLog) : Except GenError JsonData × List PollResp × RunLog :=
  match truthyS d.status with
  | none => (.ok d, polls, g)
  | some st =>
    if st = "failed" ∨ st = "error" then (.error .taskFailed, polls, g)
    else if st = "pending" ∨ st = "processing" ∨ st = "in_progress" then
      match truthyS d.taskId, isNano with
      | some t, true =>
        let g := emitP 50 g
        let g := { g with pollLoopRuns := g.pollLoopRuns + 1 }
        match runPolls polls 30 0 g with
        | (.error e, polls, g) => (.error e, polls, g)
        | (.ok (some img), polls, g) =>
          (.ok (completedBlock { d with image := some img, status := some "completed" }),
            polls, g)
        | (.ok none, polls, g) => (.error (.timeout t), polls, g)
      | _, _ => (.error .needsPolling, polls, g)
    else (.ok (completedBlock d), polls, g)

/-! ### One attempt of the retry loop (lines 709–1109) -/

/-- How one pass through the `try` block ends. -/
inductive AttemptRes where
  /-- Ends in `return` of the image and model -/
  | success (image : String)
  /-- Ends in the HTTP-429 `retryCount++; continue` path of lines 751–755 -/
  | retry429
  /-- Ends in a `throw`, to be caught by the `catch` of line 1110 -/
  | thrown (e : GenError)

/-- The tail of an attempt once a parsed body `d` is in hand
(lines 863–1109). -/
def finishAttempt (isNano : Bool) (download : String → Option String)
    (d : JsonData) (polls : List PollResp) (g : RunLog) :
    AttemptRes × List PollResp × RunLog :=
  let g := emitP 90 g
  match processStatus isNano d polls g with
  | (.error e, polls, g) => (.thrown e, polls, g)
  | (.ok d, polls, g) =>
    match truthyS d.image with
    | none => (.thrown .noImage, polls, g)
    | some img =>
      if startsW img "http://" ∨ startsW img "https://" then
        let g := emitP 95 g
        match download img with
        | some b =>
          let g := emitP 100 g
          (.success b, polls, g)
        | none => (.thrown .downloadFailed, polls, g)
      else
        let g := emitP 100 g
        (.success img, polls, g)

/-- One pass through the `try` block for dispatch response `resp`. -/
def runAttempt (isNano : Bool) (parse : String → Option JsonData)
    (download : String → Option String) (retryCount : Nat)
    (resp : DispatchResp) (polls : List PollResp) (g : RunLog) :
    AttemptRes × List PollResp × RunLog :=
  match resp with
  | .netErr => (.thrown .netErr, polls, g)
  | .httpErr status =>
    let g := emitP 70 g
    if status = 401 then (.thrown .auth, polls, g)
    else if status = 429 ∧ retryCount < 3 - 1 then (.retry429, polls, g)
    else (.thrown .callFailed, polls, g)
  | .okSse chunks =>
    let g := emitP 70 g
    match readSSE parse chunks g with
    | (.error e, g) => (.thrown e, polls, g)
    | (.ok d, g) => finishAttempt isNano download d polls g
  | .okNonJson =>
    let g := emitP 70 g
    (.thrown .notJson, polls, g)
  | .okJson d =>
    let g := emitP 70 g
    finishAttempt isNano download d polls g

/-- The `while (retryCount < maxRetries)` loop of lines 705–1123, with
the `catch` of line 1110 that increments `retryCount`, rethrows once the
budget is spent, and otherwise sleeps and retries. -/
def runLoop (isNano : Bool) (modelName : String)
    (parse : String → Option JsonData) (download : String → Option String) :
    Nat → Nat → List DispatchResp → List PollResp → RunLog →
    Except GenError GenResult × RunLog
  | 0, _, _, _, g => (.error .exhausted, g)
  | fuel + 1, retryCount, dispatches, polls, g =>
    if retryCount < 3 then
      let g := emitP (30 + (retryCount : ℚ) * 10) g
      let next := match dispatches with
        | [] => (DispatchResp.netErr, ([] : List DispatchResp))
        | r :: rest => (r, rest)
      let g := { g with requests := g.requests + 1 }
      match runAttempt isNano parse download retryCount next.1 polls g with
      | (.success img, _, g) => (.ok ⟨img, modelName⟩, g)
      | (.retry429, polls, g) =>
        runLoop isNano modelName parse download fuel (retryCount + 1) next.2 polls g
      | (.thrown e, polls, g) =>
        if retryCount + 1 ≥ 3 then (.error e, g)
        else runLoop isNano modelName parse download fuel (retryCount + 1) next.2 polls g
    else (.error .exhausted, g)

/-- Function `generateAIImage` from `onProgress(10)` (line 702) onward, for a call
that supplies an `onProgress` callback. -/
def runGenerate (isNano : Bool) (modelName : String)
    (parse : String → Option JsonData) (download : String → Option String)
    (dispatches : List DispatchResp) (polls : List PollResp) :
    Except GenError GenResult × RunLog :=
  runLoop isNano modelName parse download 3 0 dispatches polls
    (emitP 10 ⟨[], 0, 0, 0⟩)

/-! ## Config validation probe (`validateAPIConfig`, part_009 lines 66–215)

The probe issues one provider-appropriate test request and grades the
response.  The test body/headers depend on the provider but never on the
outcome, so they are not modelled.  Note the source's own subtlety at
lines 160–188: the `throw` for 401/403 inside the keyword branch sits in
a `try` whose `catch (e) {}` swallows it, so execution falls through to
the plain status checks of lines 191–198. -/

/-- ASCII lower-casing, as `String.prototype.toLowerCase` acts on the
URLs at hand. -/
def lowerChar (c : Char) : Char :=
  if 'A' ≤ c ∧ c ≤ 'Z' then Char.ofNat (c.toNat + 32) else c

/-- JS `String.prototype.toLowerCase` (ASCII fragment). -/
def lowerStr (s : String) : String :=
  String.mk (s.data.map lowerChar)

/-- The documentation-page heuristics of lines 74–80. -/
def isDocLike (endpoint : String) : Bool :=
  let e := lowerStr endpoint
  containsSub e "/doc" || containsSub e "/docs" || containsSub e "/documentation" ||
  containsSub e "apifox.cn" || endsW e ".html" || containsSub e "/#/"

/-- The keyword sniff of lines 167–169 over the stringified JSON error. -/
def hasKeyword (msg : String) : Bool :=
  containsSub msg "Gemini" || containsSub msg "candidates" ||
  containsSub msg "channel_error" || containsSub msg "empty response" ||
  containsSub msg "channel:" || containsSub msg "request id:"

/-- The probe's view of the HTTP response: status, content type, the
stringified JSON body (`none` when `response.json()` rejects), and the
plain text body (`response.text().catch(() => '')`). -/
structure VResp where
  status : Nat
  ctype : String
  jsonMsg : Option String
  textBody : String

/-- Outcome of the probe's `fetch`. -/
inductive VOut where
  | netErr
  | resp (r : VResp)

/-- The errors `validateAPIConfig` can propagate to its caller. -/
inductive VError where
  /-- Thrown as API地址不能为空 (line 70) -/
  | emptyEndpoint
  /-- Thrown as API地址看起来像是文档页面 (line 81) -/
  | docPage
  /-- Thrown as API地址格式无效 (line 96) -/
  | badUrl
  /-- Raised when the probe `fetch` itself rejected -/
  | network
  /-- Thrown as API地址返回了HTML页面 (line 152) -/
  | htmlPage
  /-- Thrown as API返回错误 (line 207) -/
  | apiError
deriving Repr, DecidableEq

/-- The JSON-keyword block of lines 160–188 as the caller observes it:
`true` when the block hits one of its `return true` statements, `false`
when it falls through — including the case where its own 401/403 `throw`
is swallowed by the `catch (e) {}` of line 185. -/
def vEarlyTrue (r : VResp) : Bool :=
  if containsSub r.ctype "application/json" then
    match r.jsonMsg with
    | some msg =>
      if hasKeyword msg then
        if r.status = 401 ∨ r.status = 403 then false else true
      else false
    | none => false
  else false

/-- Function `validateAPIConfig` (part_009 lines 66–215); `urlParses`
models `new URL(config.apiEndpoint)` succeeding. -/
def validateAPIConfig (endpoint : String) (urlParses : Bool) (out : VOut) :
    Except VError Bool :=
  if endpoint = "" then .error .emptyEndpoint
  else if isDocLike endpoint then .error .docPage
  else if urlParses = false then .error .badUrl
  else
    match out with
    | .netErr => .error .network
    | .resp r =>
      if containsSub r.ctype "text/html" then .error .htmlPage
      else
        if vEarlyTrue r then .ok true
        else if r.status = 401 ∨ r.status = 403 then .ok true
        else if r.status = 400 ∨ r.status = 422 ∨ r.status = 429 then .ok true
        else if ¬(200 ≤ r.status ∧ r.status ≤ 299) then
          if containsSub r.textBody "Gemini" ∨ containsSub r.textBody "candidates" then .ok true
          else .error .apiError
        else .ok true

/-! ## Canonical image-slot views (used to state the ordering claims) -/

/-- The image a `role`/`scene` slot contributes to the Gemini `parts`
array (empty when absent or filtered out). -/
def geminiOptImage (o : Option String) : List (String × String) :=
  match o with
  | some r =>
    if (extractBase64 r).2 ≠ "" ∧ 100 ≤ (extractBase64 r).2.length then
      [extractBase64 r]
    else []
  | none => []

/-- The image a `role`/`scene` slot contributes to the Nano `urls` array. -/
def nanoOptImage (o : Option String) : List String :=
  match o with
  | some r =>
    if extractPureBase64 r ≠ "" ∧ 100 ≤ (extractPureBase64 r).length then
      [extractPureBase64 r]
    else []
  | none => []

/-- The image a `role`/`scene` slot contributes to the OpenAI-style body. -/
def genericOptImage (o : Option String) : List String :=
  match o with
  | some r => if r ≠ "" ∧ 100 ≤ r.length then [r] else []
  | none => []

/-! ## Concrete fixtures for the witnesses and counterexamples -/

/-- A string of `n` letters `A` (a valid base64 fragment). -/
def manyA (n : Nat) : String := String.mk (List.replicate n 'A')

/-- A `JSON.parse` oracle that fails on every frame. -/
def noParse : String → Option JsonData := fun _ => none

/-- A download oracle that always fails (never exercised in the runs
below). -/
def noDl : String → Option String := fun _ => none

/-- An empty run log. -/
def initLog : RunLog := ⟨[], 0, 0, 0⟩

/-- A pending task body carrying task id `t1`. -/
def pendingBody : JsonData := ⟨some "pending", some "t1", none, none⟩

/-- A direct JSON body in which the extraction cascade finds a data URL. -/
def directBody : JsonData := ⟨none, none, some "data:image/png;base64,XYZW", none⟩

/-- A tiny `JSON.parse` oracle for two concrete SSE frames. -/
def demoParse : String → Option JsonData := fun s =>
  if s = "PEND" then some ⟨some "pending", none, none, none⟩
  else if s = "SUCC" then some ⟨some "succeeded", none, some "data:image/png;base64,QUJD", none⟩
  else none

/-- The data URI whose decoded payload is 75 bytes (100 base64 chars). -/
def dataUri75 : String := "data:image/png;base64," ++ manyA 100

/-- The 100-char data URI whose base64 payload has only 78 chars. -/
def dataUriShort : String := "data:image/png;base64," ++ manyA 78

/-- A comfortably long, valid storyboard data URI. -/
def dataUriLong : String := "data:image/png;base64," ++ manyA 200

/-- An endpoint containing both the Gemini markers and the Nano-Banana
task-submission path segment. -/
def bothMarkersUrl : String :=
  "https://host.example/v1beta/models/m:generateContent/v1/draw/x"

/-! # Theorems -/

/-! ## Bounds for `jsRound` (shared helpers) -/

theorem jsRound_le (x : ℚ) : (jsRound x : ℚ) ≤ x + 1/2 := by
  simpa [jsRound] using Int.floor_le (x + 1/2)

theorem lt_jsRound (x : ℚ) : x - 1/2 < (jsRound x : ℚ) := by
  have h := Int.sub_one_lt_floor (x + 1/2)
  simp only [jsRound]
  linarith

theorem abs_jsRound_sub_le (x : ℚ) : |(jsRound x : ℚ) - x| ≤ 1/2 := by
  have h1 := jsRound_le x
  have h2 := lt_jsRound x
  rw [abs_le]
  constructor <;> linarith

/-- A value rounded to a multiple of 8 stays within 4 of its input. -/
theorem abs_round8_sub_le (y : ℚ) : |((jsRound (y / 8) * 8 : ℤ) : ℚ) - y| ≤ 4 := by
  have h := abs_jsRound_sub_le (y / 8)
  have h8 : |(jsRound (y / 8) : ℚ) - y / 8| * 8 ≤ (1/2 : ℚ) * 8 := by
    have : (0:ℚ) ≤ 8 := by norm_num
    exact mul_le_mul_of_nonneg_right h this
  have habs : |((jsRound (y / 8) : ℚ) - y / 8) * 8| = |(jsRound (y / 8) : ℚ) - y / 8| * 8 := by
    rw [abs_mul]
    norm_num
  have hb : |((jsRound (y / 8) : ℚ) - y / 8) * 8| ≤ 4 := by
    rw [habs]; linarith
  have hexp : ((jsRound (y / 8) : ℚ) - y / 8) * 8 = ((jsRound (y / 8) * 8 : ℤ) : ℚ) - y := by
    push_cast
    ring
  rwa [hexp] at hb

/-! ## C1 — 401 handling in the retry loop

The claim says a 401 response surfaces `AuthError` immediately with
exactly one HTTP request.  Line 746 indeed throws without retrying (the
source comment 如果是认证错误，不重试 states the intent), but that throw is
caught by the catch-all of line 1110, which increments `retryCount` and
loops, so a sustained 401 produces three dispatch requests and the auth
error only surfaces once the budget is spent. -/

/-- C1: on a sustained HTTP-401 endpoint the run issues three dispatch
requests and surfaces the auth error only after the retry budget — the
code retries 401s, contradicting both the claim and the source's own
comment at line 745. -/
theorem C1_sustained_401_is_retried :
    (runGenerate false "m" noParse noDl (List.replicate 3 (.httpErr 401)) []).1
      = .error .auth ∧
    (runGenerate false "m" noParse noDl (List.replicate 3 (.httpErr 401)) []).2.requests
      = 3 := by
  decide

/-! ## C2 — the poll loop and the outer retry loop

After 30 polls without a terminal status the attempt does throw a
timeout error carrying the task id (line 973), but that throw is caught
by the catch-all of line 1110: the request is re-dispatched and the poll
loop re-entered, up to the 3-attempt budget. -/

/-- C2 counterexample: with every dispatch answering `pending` (task id
`t1`) and every poll answering a non-terminal status, the poll loop is
entered three times and three dispatch requests are issued — refuting
"the poll loop is executed at most once per call" and "the outer Retry
Controller does not re-dispatch". -/
theorem C2_poll_loop_runs_three_times :
    (runGenerate true "m" noParse noDl (List.replicate 3 (.okJson pendingBody)) []).2.pollLoopRuns
      = 3 ∧
    (runGenerate true "m" noParse noDl (List.replicate 3 (.okJson pendingBody)) []).2.requests
      = 3 := by
  decide

/-- C2 amended: each entry of the poll loop makes exactly 30 poll
attempts and then raises `Timeout` carrying the task id; the outer retry
loop treats that like any other failure, so after re-dispatching up to
the 3-attempt budget (90 poll requests in total) the surfaced error is
the timeout with the task id. -/
theorem C2_timeout_carries_task_id :
    (runGenerate true "m" noParse noDl (List.replicate 3 (.okJson pendingBody)) []).1
      = .error (.timeout "t1") ∧
    (runGenerate true "m" noParse noDl (List.replicate 3 (.okJson pendingBody)) []).2.pollRequests
      = 90 := by
  decide

/-! ## C4 — pixel size derivation -/

/-- C4 counterexample: for aspect ratio `21:9` the emitted height is 440,
which exceeds the unrounded fitted height `1024·9/21 = 3072/7 ≈ 438.9` —
the code rounds to the *nearest* multiple of 8 (`Math.round(x/8)*8`),
not down. -/
theorem C4_height_exceeds_fitted :
    (calculateImageSize 21 9 1024).2 = 440 ∧
    fittedHeight 21 9 1024 < ((calculateImageSize 21 9 1024).2 : ℚ) := by
  constructor
  · norm_num [calculateImageSize, jsRound, Int.floor_eq_iff]
  · norm_num [calculateImageSize, fittedHeight, jsRound, Int.floor_eq_iff]

/-- C4 amended: both emitted dimensions are multiples of 8, but the
rounding is to the *nearest* multiple of 8 (first `Math.round` of the
fitted dimension, then `Math.round(x/8)*8`), so each emitted dimension
lies within 9/2 of the unrounded fitted dimension — on either side —
rather than never exceeding it. -/
theorem C4_size_multiple_of_8_within_bounds (w h : ℚ) :
    (8 ∣ (calculateImageSize w h 1024).1) ∧
    (8 ∣ (calculateImageSize w h 1024).2) ∧
    |((calculateImageSize w h 1024).1 : ℚ) - fittedWidth w h 1024| ≤ 9/2 ∧
    |((calculateImageSize w h 1024).2 : ℚ) - fittedHeight w h 1024| ≤ 9/2 := by
  unfold calculateImageSize fittedWidth fittedHeight
  by_cases hc : h ≤ w <;> simp only [hc, if_true, if_false, reduceIte]
  · refine ⟨dvd_mul_left 8 _, dvd_mul_left 8 _, ?_, ?_⟩
    · have := abs_round8_sub_le (1024 : ℚ)
      push_cast at this ⊢
      linarith [this]
    · set x : ℚ := 1024 / (w / h) with hx
      have h1 : |((jsRound ((jsRound x : ℚ) / 8) * 8 : ℤ) : ℚ) - (jsRound x : ℚ)| ≤ 4 :=
        abs_round8_sub_le (jsRound x : ℚ)
      have h2 : |(jsRound x : ℚ) - x| ≤ 1/2 := abs_jsRound_sub_le x
      have h3 := abs_sub_le ((jsRound ((jsRound x : ℚ) / 8) * 8 : ℤ) : ℚ) (jsRound x : ℚ) x
      push_cast at h1 h3 ⊢
      linarith
  · refine ⟨dvd_mul_left 8 _, dvd_mul_left 8 _, ?_, ?_⟩
    · set x : ℚ := 1024 * (w / h) with hx
      have h1 : |((jsRound ((jsRound x : ℚ) / 8) * 8 : ℤ) : ℚ) - (jsRound x : ℚ)| ≤ 4 :=
        abs_round8_sub_le (jsRound x : ℚ)
      have h2 : |(jsRound x : ℚ) - x| ≤ 1/2 := abs_jsRound_sub_le x
      have h3 := abs_sub_le ((jsRound ((jsRound x : ℚ) / 8) * 8 : ℤ) : ℚ) (jsRound x : ℚ) x
      push_cast at h1 h3 ⊢
      linarith
    · have := abs_round8_sub_le (1024 : ℚ)
      push_cast at this ⊢
      linarith [this]

/-! ## C9 — provider classification -/

/-- C9 counterexample: an endpoint containing both the Gemini markers and
the task-submission segment `/v1/draw/` is classified `GEMINI`, not
`ASYNC_TASK` — the Gemini test takes precedence in the `else if`
cascade, so "ASYNC_TASK when the task-submission path segment is
present" fails as stated. -/
theorem C9_gemini_takes_precedence :
    isNanoEndpoint bothMarkersUrl = true ∧
    classify bothMarkersUrl = .GEMINI ∧
    classify bothMarkersUrl ≠ .ASYNC_TASK := by
  decide

/-- C9 amended: classification is a total function of the endpoint text
alone (it is a pure Lean function of the string), with `GEMINI` iff both
model-invocation markers are present, `ASYNC_TASK` iff the
task-submission segment is present *and* the Gemini markers are not, and
`GENERIC` exactly otherwise. -/
theorem C9_classify_characterization (e : String) :
    (classify e = .GEMINI ↔ isGeminiEndpoint e = true) ∧
    (classify e = .ASYNC_TASK ↔ (isGeminiEndpoint e = false ∧ isNanoEndpoint e = true)) ∧
    (classify e = .GENERIC ↔ (isGeminiEndpoint e = false ∧ isNanoEndpoint e = false)) := by
  unfold classify
  rcases hg : isGeminiEndpoint e <;> rcases hn : isNanoEndpoint e <;> simp

/-! ## C6 — progress monotonicity

Each attempt reports 70 right after `fetch` returns (line 721), but a
later attempt's dispatch progress is `30 + 10·retryCount` (line 711), so
any retry after a received response drives the reported percentage
back down. -/

/-- C6 counterexample: with a first dispatch answering HTTP 500 and a
second succeeding, the reported percentages are
`10, 30, 70, 40, 70, 90, 100` — not monotonically non-decreasing
(70 is followed by 40). -/
theorem C6_progress_drops_on_retry :
    (runGenerate false "m" noParse noDl [.httpErr 500, .okJson directBody] []).2.trace
      = [10, 30, 70, 40, 70, 90, 100] ∧
    ¬ List.Chain' (· ≤ ·)
      (runGenerate false "m" noParse noDl [.httpErr 500, .okJson directBody] []).2.trace := by
  have h : (runGenerate false "m" noParse noDl [.httpErr 500, .okJson directBody] []).2.trace
      = [10, 30, 70, 40, 70, 90, 100] := by
    simp [runGenerate, runLoop, runAttempt, finishAttempt, processStatus, completedBlock,
      truthyS, emitP, readSSE, startsW, directBody]
    norm_num
  refine ⟨h, ?_⟩
  rw [h]
  norm_num [List.chain'_cons]

/-- C6 amended: the percentages are monotonically non-decreasing only
for a call that completes on its first attempt without streaming or
polling (`10, 30, 70, 90, 100`); once an attempt fails after its
response was received, the next attempt's dispatch progress
(`30 + 10·k`) is below the previous 70, so across retries (and likewise
when the poll loop reports 50 after 90) the sequence can decrease. -/
theorem C6_progress_monotone_without_retries :
    (runGenerate false "m" noParse noDl [.okJson directBody] []).2.trace
      = [10, 30, 70, 90, 100] ∧
    List.Chain' (· ≤ ·)
      (runGenerate false "m" noParse noDl [.okJson directBody] []).2.trace ∧
    (runGenerate false "m" noParse noDl [.okJson directBody] []).1
      = .ok ⟨"data:image/png;base64,XYZW", "m"⟩ := by
  have h : (runGenerate false "m" noParse noDl [.okJson directBody] []).2.trace
      = [10, 30, 70, 90, 100] := by
    simp [runGenerate, runLoop, runAttempt, finishAttempt, processStatus, completedBlock,
      truthyS, emitP, readSSE, startsW, directBody]
  refine ⟨h, ?_, by decide⟩
  rw [h]
  norm_num [List.chain'_cons]

/-! ## C7 — stream-end handling

The source fails the stream read only when *no* `data: ` frame at all
was ever parsed (`if (!lastData)`, line 831); a stream that ends after
parsing only non-terminal events returns the last parsed event instead
of failing. -/

/-- C7 counterexample: a stream consisting of one well-formed
non-terminal (`pending`) frame ends without any terminal event, yet the
stream read succeeds with that event instead of failing with
`MalformedResponse`. -/
theorem C7_nonterminal_stream_not_failed :
    (readSSE demoParse ["data: PEND\n"] initLog).1
      = .ok ⟨some "pending", none, none, none⟩ ∧
    isTerminalStatus (some "pending") = false := by
  decide

/-- Helper: with a parser that fails on every frame, the line loop
changes nothing. -/
theorem sseLines_of_parse_none (parse : String → Option JsonData)
    (hp : ∀ s, parse s = none) :
    ∀ (ls : List (List Char)) (buffer : List Char) (lastData : Option JsonData) (g : RunLog),
      sseLines parse ls buffer lastData g = (lastData, g) := by
  intro ls
  induction ls with
  | nil => intro buffer lastData g; rfl
  | cons l t ih =>
    intro buffer lastData g
    rw [sseLines]
    simp only [hp]
    split
    · split
      · exact ih buffer lastData g
      · exact ih buffer lastData g
    · exact ih buffer lastData g

/-- Helper: with a parser that fails on every frame, the chunk loop
never acquires an event. -/
theorem sseChunks_of_parse_none (parse : String → Option JsonData)
    (hp : ∀ s, parse s = none) :
    ∀ (chunks : List String) (buffer : List Char) (g : RunLog),
      sseChunks parse chunks buffer none g = (none, g) := by
  intro chunks
  induction chunks with
  | nil => intro buffer g; rfl
  | cons c rest ih =>
    intro buffer g
    rw [sseChunks, sseLines_of_parse_none parse hp]
    exact ih _ g

/-- C7 amended: malformed `data: ` frames are skipped without aborting
the stream (a stream with an unparseable frame followed by a terminal
`succeeded` frame yields the terminal event), but the read fails with
`MalformedResponse` only when *no* frame at all was ever parsed — a
stream ending after only non-terminal events returns the last parsed
event rather than failing. -/
theorem C7_fails_only_without_any_parsed_event (parse : String → Option JsonData)
    (hp : ∀ s, parse s = none) (chunks : List String) :
    (readSSE parse chunks initLog).1 = .error .sseNoData ∧
    (readSSE demoParse ["data: BAD\ndata: SUCC\n"] initLog).1
      = .ok ⟨some "succeeded", none, some "data:image/png;base64,QUJD", none⟩ := by
  constructor
  · rw [readSSE, sseChunks_of_parse_none parse hp]
  · decide

/-- C7 witness: the amended theorem applied to the all-failing parser on
a concrete stream. -/
theorem C7_witness :
    (readSSE noParse ["data: PEND\n"] initLog).1 = .error .sseNoData ∧
    (readSSE demoParse ["data: BAD\ndata: SUCC\n"] initLog).1
      = .ok ⟨some "succeeded", none, some "data:image/png;base64,QUJD", none⟩ :=
  C7_fails_only_without_any_parsed_event noParse (fun _ => rfl) ["data: PEND\n"]

/-! ## C3 — the normalization thresholds -/

/-- C3 counterexample: a data URI whose 100-char base64 payload decodes
to 75 bytes — below the claimed 100-byte minimum — passes
`convertToBase64` unchanged: the source thresholds are 100 *characters*
of data-URL text and 50 *characters* of payload, not decoded bytes. -/
theorem C3_under_100_bytes_accepted :
    base64DecodedLength (manyA 100) = 75 ∧
    matchImageDataUrl dataUri75 = some (manyA 100) ∧
    convertToBase64 ⟨fun _ => none⟩ dataUri75 = .ok dataUri75 := by
  decide

/-- Helper: a string starting with `data:` does not trim to empty. -/
theorem trimS_ne_empty_of_data (s : String) (hs : startsW s "data:" = true) :
    trimS s ≠ "" := by
  unfold startsW at hs
  rw [List.isPrefixOf_iff_prefix] at hs
  obtain ⟨t, ht⟩ := hs
  intro hcon
  have hd : s.data = 'd' :: ('a' :: 't' :: 'a' :: ':' :: t) := by
    rw [← ht]; rfl
  have h0 : (((s.data.dropWhile isJsWs).reverse.dropWhile isJsWs).reverse) = [] := by
    simpa [trimS, String.ext_iff] using hcon
  rw [hd] at h0
  rw [List.dropWhile_cons] at h0
  simp only [show isJsWs 'd' = false from rfl, Bool.false_eq_true, if_false] at h0
  rw [List.reverse_eq_nil_iff, List.dropWhile_eq_nil_iff] at h0
  have hmem : 'd' ∈ ('d' :: ('a' :: 't' :: 'a' :: ':' :: t)).reverse := by
    simp
  have := h0 _ hmem
  simp [isJsWs] at this

/-- Helper: a string of length ≥ 100 is non-empty. -/
theorem ne_empty_of_len_ge (s : String) (n : Nat) (hn : 0 < n) (h : n ≤ s.length) :
    s ≠ "" := by
  intro hcon
  rw [hcon] at h
  simp [String.length] at h
  omega

/-- C3 amended: `convertToBase64` thresholds encoded *string lengths*,
not decoded bytes.  A `data:` input is accepted (unchanged) iff the full
string has ≥ 100 characters and its `data:image/…;base64,` payload has
≥ 50 characters; a `blob:`/URL input whose fetch succeeds is accepted
iff the blob is non-empty and the re-encoded data URL has ≥ 100
characters.  In particular images of 38–99 decoded bytes are accepted. -/
theorem C3_threshold_characterization (env : FetchEnv) (s url mime : String)
    (bytes : List Nat) (hs : startsW s "data:" = true)
    (hu : startsW url "data:" = false) (hut : trimS url ≠ "")
    (hf : env.fetchBlob url = some (mime, bytes)) :
    (convertToBase64 env s = .ok s ↔
      100 ≤ s.length ∧ ∃ p, matchImageDataUrl s = some p ∧ 50 ≤ p.length) ∧
    (convertToBase64 env url = .ok (dataUrlOf mime bytes) ↔
      bytes ≠ [] ∧ 100 ≤ (dataUrlOf mime bytes).length) := by
  have hsne : s ≠ "" := by
    intro h
    rw [h] at hs
    exact absurd hs (by decide)
  have hst : trimS s ≠ "" := trimS_ne_empty_of_data s hs
  have hune : url ≠ "" := by
    intro h
    rw [h] at hut
    exact hut rfl
  constructor
  · rw [convertToBase64]
    simp only [hsne, hst, hs, decide_eq_false_iff_not, not_false_eq_true, Bool.or_self,
      Bool.false_eq_true, if_false, if_true]
    simp only [show (decide False) = false from rfl, Bool.false_eq_true, if_false]
    by_cases hlen : s.length < 100
    · rw [if_pos hlen]
      simp only [show (Except.error NormError.tooShort : Except NormError String)
          = Except.ok s ↔ False from by simp, false_iff]
      rintro ⟨hA, -⟩
      omega
    · rw [if_neg hlen]
      cases hm : matchImageDataUrl s with
      | none => simp [hm]
      | some p =>
        by_cases hp : p.length < 50
        · simp [hp]
        · simp [hp]
          exact ⟨by omega, by omega⟩
  · rw [convertToBase64]
    simp only [hune, hut, decide_eq_false_iff_not, not_false_eq_true, Bool.or_self]
    simp only [show (decide False) = false from rfl, Bool.false_eq_true, if_false, hu]
    rw [hf]
    by_cases hb : bytes.length = 0
    · have hbe : bytes = [] := List.length_eq_zero.mp hb
      simp [hb, hbe]
    · have hbn : bytes ≠ [] := fun h => hb (by rw [h]; rfl)
      by_cases hl : (dataUrlOf mime bytes).length < 100
      · simp [hb, hl, hbn]
      · simp [hb, hl, hbn]
        omega

/-- C3 witness: the amended characterization instantiated at the 100-char
data URI with a 78-char payload, and at a blob of 75 zero bytes. -/
theorem C3_witness :
    (convertToBase64 ⟨fun u => if u = "blob:b" then some ("image/png", List.replicate 75 0) else none⟩
        dataUriShort = .ok dataUriShort ↔
      100 ≤ dataUriShort.length ∧
        ∃ p, matchImageDataUrl dataUriShort = some p ∧ 50 ≤ p.length) ∧
    (convertToBase64 ⟨fun u => if u = "blob:b" then some ("image/png", List.replicate 75 0) else none⟩
        "blob:b" = .ok (dataUrlOf "image/png" (List.replicate 75 0)) ↔
      List.replicate 75 (0 : Nat) ≠ [] ∧
        100 ≤ (dataUrlOf "image/png" (List.replicate 75 0)).length) :=
  C3_threshold_characterization _ dataUriShort "blob:b" "image/png" (List.replicate 75 0)
    (by decide) (by decide) (by decide) (by decide)

/-! ## C5 — image ordering in the three provider bodies -/

/-- Helper: the Gemini parts of a build, as storyboard followed by the
optional slots in order. -/
theorem geminiImages_build (p sb : String) (role scene : Option String) :
    geminiImages (buildGeminiParts p sb role scene)
      = extractBase64 sb :: (geminiOptImage role ++ geminiOptImage scene) := by
  cases role <;> cases scene <;>
    simp [buildGeminiParts, geminiImages, geminiOptImage] <;>
    split_ifs <;>
    simp_all [geminiImages]

/-- Helper: the Nano urls of a build, in slot order. -/
theorem nanoUrls_build (sb : String) (role scene : Option String) :
    buildNanoUrls sb role scene
      = extractPureBase64 sb :: (nanoOptImage role ++ nanoOptImage scene) := by
  cases role <;> cases scene <;>
    simp [buildNanoUrls, nanoOptImage] <;>
    split_ifs <;>
    simp_all

/-- Helper: the OpenAI-style body's images, in slot order. -/
theorem genericImages_build (sb : String) (role scene : Option String) :
    genericImageList (buildGenericBody sb role scene)
      = sb :: (genericOptImage role ++ genericOptImage scene) := by
  cases role <;> cases scene <;>
    simp [buildGenericBody, genericImageList, genericOptImage] <;>
    split_ifs <;>
    simp_all

/-- C5: every provider body lists its images as storyboard first, then
the role slot, then the scene slot (each optional slot contributing its
filtered image), and swapping the images of the two optional slots swaps
their positions in the body identically. -/
theorem C5_image_order (p sb : String) (role scene : Option String) (a b : String)
    (ha : 100 ≤ (extractPureBase64 a).length) (hb : 100 ≤ (extractPureBase64 b).length)
    (ha2 : 100 ≤ (extractBase64 a).2.length) (hb2 : 100 ≤ (extractBase64 b).2.length)
    (haf : 100 ≤ a.length) (hbf : 100 ≤ b.length) :
    geminiImages (buildGeminiParts p sb role scene)
      = extractBase64 sb :: (geminiOptImage role ++ geminiOptImage scene) ∧
    buildNanoUrls sb role scene
      = extractPureBase64 sb :: (nanoOptImage role ++ nanoOptImage scene) ∧
    genericImageList (buildGenericBody sb role scene)
      = sb :: (genericOptImage role ++ genericOptImage scene) ∧
    (geminiImages (buildGeminiParts p sb (some a) (some b))
        = [extractBase64 sb, extractBase64 a, extractBase64 b] ∧
      geminiImages (buildGeminiParts p sb (some b) (some a))
        = [extractBase64 sb, extractBase64 b, extractBase64 a]) ∧
    (buildNanoUrls sb (some a) (some b)
        = [extractPureBase64 sb, extractPureBase64 a, extractPureBase64 b] ∧
      buildNanoUrls sb (some b) (some a)
        = [extractPureBase64 sb, extractPureBase64 b, extractPureBase64 a]) ∧
    (genericImageList (buildGenericBody sb (some a) (some b)) = [sb, a, b] ∧
      genericImageList (buildGenericBody sb (some b) (some a)) = [sb, b, a]) := by
  have hane : extractPureBase64 a ≠ "" := ne_empty_of_len_ge _ 100 (by omega) ha
  have hbne : extractPureBase64 b ≠ "" := ne_empty_of_len_ge _ 100 (by omega) hb
  have hane2 : (extractBase64 a).2 ≠ "" := ne_empty_of_len_ge _ 100 (by omega) ha2
  have hbne2 : (extractBase64 b).2 ≠ "" := ne_empty_of_len_ge _ 100 (by omega) hb2
  have hanef : a ≠ "" := ne_empty_of_len_ge _ 100 (by omega) haf
  have hbnef : b ≠ "" := ne_empty_of_len_ge _ 100 (by omega) hbf
  refine ⟨geminiImages_build p sb role scene, nanoUrls_build sb role scene,
    genericImages_build sb role scene, ⟨?_, ?_⟩, ⟨?_, ?_⟩, ⟨?_, ?_⟩⟩
  · rw [geminiImages_build]
    simp [geminiOptImage, hane2, hbne2, ha2, hb2]
  · rw [geminiImages_build]
    simp [geminiOptImage, hane2, hbne2, ha2, hb2]
  · rw [nanoUrls_build]
    simp [nanoOptImage, hane, hbne, ha, hb]
  · rw [nanoUrls_build]
    simp [nanoOptImage, hane, hbne, ha, hb]
  · rw [genericImages_build]
    simp [genericOptImage, hanef, hbnef, haf, hbf]
  · rw [genericImages_build]
    simp [genericOptImage, hanef, hbnef, haf, hbf]

/-- C5 witness: the ordering applied to concrete slot assignments. -/
theorem C5_witness :
    geminiImages (buildGeminiParts "p" dataUriLong (some dataUriLong) none)
      = extractBase64 dataUriLong
        :: (geminiOptImage (some dataUriLong) ++ geminiOptImage none) ∧
    buildNanoUrls dataUriLong (some dataUriLong) none
      = extractPureBase64 dataUriLong
        :: (nanoOptImage (some dataUriLong) ++ nanoOptImage none) ∧
    genericImageList (buildGenericBody dataUriLong (some dataUriLong) none)
      = dataUriLong :: (genericOptImage (some dataUriLong) ++ genericOptImage none) ∧
    (geminiImages (buildGeminiParts "p" dataUriLong (some dataUriLong) (some dataUri75))
        = [extractBase64 dataUriLong, extractBase64 dataUriLong, extractBase64 dataUri75] ∧
      geminiImages (buildGeminiParts "p" dataUriLong (some dataUri75) (some dataUriLong))
        = [extractBase64 dataUriLong, extractBase64 dataUri75, extractBase64 dataUriLong]) ∧
    (buildNanoUrls dataUriLong (some dataUriLong) (some dataUri75)
        = [extractPureBase64 dataUriLong, extractPureBase64 dataUriLong,
            extractPureBase64 dataUri75] ∧
      buildNanoUrls dataUriLong (some dataUri75) (some dataUriLong)
        = [extractPureBase64 dataUriLong, extractPureBase64 dataUri75,
            extractPureBase64 dataUriLong]) ∧
    (genericImageList (buildGenericBody dataUriLong (some dataUriLong) (some dataUri75))
        = [dataUriLong, dataUriLong, dataUri75] ∧
      genericImageList (buildGenericBody dataUriLong (some dataUri75) (some dataUriLong))
        = [dataUriLong, dataUri75, dataUriLong]) :=
  C5_image_order "p" dataUriLong (some dataUriLong) none dataUriLong dataUri75
    (by decide) (by decide) (by decide) (by decide) (by decide) (by decide)

/-! ## C10 — undersized optional reference images -/

/-- C10 counterexample: a 100-char data URI whose payload has only 78
characters normalizes successfully, and in the *GENERIC* body it is NOT
omitted — the OpenAI-style branch thresholds the full data-URL string
(≥ 100 chars, line 673), not the payload, so the claim fails for that
provider. -/
theorem C10_generic_keeps_short_payload :
    convertToBase64 ⟨fun _ => none⟩ dataUriShort = .ok dataUriShort ∧
    (extractBase64 dataUriShort).2.length < 100 ∧
    (buildGenericBody dataUriLong (some dataUriShort) none).reference_image
      = some dataUriShort := by
  decide

/-- C10 amended: a role or scene image whose extracted base64 payload is
under 100 characters is silently dropped from the GEMINI `parts` and the
ASYNC_TASK `urls` (the call proceeds; the builders are total); the
GENERIC body instead thresholds the full data-URL string, so such an
image is still included there whenever the whole string has ≥ 100
characters. -/
theorem C10_short_payload_skipped_except_generic (p sb r : String)
    (h1 : (extractBase64 r).2.length < 100)
    (h2 : (extractPureBase64 r).length < 100)
    (h3 : 100 ≤ r.length) :
    geminiImages (buildGeminiParts p sb (some r) none) = [extractBase64 sb] ∧
    geminiImages (buildGeminiParts p sb none (some r)) = [extractBase64 sb] ∧
    buildNanoUrls sb (some r) none = [extractPureBase64 sb] ∧
    buildNanoUrls sb none (some r) = [extractPureBase64 sb] ∧
    (buildGenericBody sb (some r) none).reference_image = some r ∧
    (buildGenericBody sb none (some r)).scene_image = some r := by
  have hrne : r ≠ "" := ne_empty_of_len_ge _ 100 (by omega) h3
  refine ⟨?_, ?_, ?_, ?_, ?_, ?_⟩
  · rw [geminiImages_build]
    simp [geminiOptImage]
    omega
  · rw [geminiImages_build]
    simp [geminiOptImage]
    omega
  · rw [nanoUrls_build]
    simp [nanoOptImage]
    omega
  · rw [nanoUrls_build]
    simp [nanoOptImage]
    omega
  · simp [buildGenericBody, hrne, h3]
  · simp [buildGenericBody, hrne, h3]

/-- C10 witness: the amended statement at the concrete 100-char data URI
with 78-char payload. -/
theorem C10_witness :
    geminiImages (buildGeminiParts "p" dataUriLong (some dataUriShort) none)
      = [extractBase64 dataUriLong] ∧
    geminiImages (buildGeminiParts "p" dataUriLong none (some dataUriShort))
      = [extractBase64 dataUriLong] ∧
    buildNanoUrls dataUriLong (some dataUriShort) none
      = [extractPureBase64 dataUriLong] ∧
    buildNanoUrls dataUriLong none (some dataUriShort)
      = [extractPureBase64 dataUriLong] ∧
    (buildGenericBody dataUriLong (some dataUriShort) none).reference_image
      = some dataUriShort ∧
    (buildGenericBody dataUriLong none (some dataUriShort)).scene_image
      = some dataUriShort :=
  C10_short_payload_skipped_except_generic "p" dataUriLong dataUriShort
    (by decide) (by decide) (by decide)

/-! ## C8 — the config validation probe -/

/-- C8: for a probe response with status 400, 401, 403, 422 or 429, the
validation returns `true` unless the response is HTML (then it
hard-fails), and a network-level fetch failure hard-fails — exactly the
claimed grading.  (The 401/403 `throw` inside the keyword branch of
lines 172–174 is swallowed by its own `catch (e) {}` at line 185, so
even keyword-bearing 401 bodies fall through to `return true`.) -/
theorem C8_reachable_statuses_validate_true (endpoint : String) (r : VResp)
    (h1 : endpoint ≠ "") (h2 : isDocLike endpoint = false)
    (h4 : r.status = 400 ∨ r.status = 401 ∨ r.status = 403 ∨ r.status = 422 ∨
      r.status = 429) :
    validateAPIConfig endpoint true (.resp r)
      = (if containsSub r.ctype "text/html" = true then .error .htmlPage else .ok true) ∧
    validateAPIConfig endpoint true .netErr = .error .network := by
  constructor
  · rw [validateAPIConfig]
    simp only [h1, h2, Bool.false_eq_true, if_false, Bool.true_eq_false, not_false_eq_true,
      decide_eq_false_iff_not]
    by_cases h3 : containsSub r.ctype "text/html" = true
    · rw [if_pos h3, if_pos h3]
    · rw [if_neg h3, if_neg h3]
      cases hE : vEarlyTrue r
      · simp only [hE, Bool.false_eq_true, if_false]
        rcases h4 with h | h | h | h | h <;> simp [h]
      · simp only [hE, if_true]
  · rw [validateAPIConfig]
    simp [h1, h2]

/-- C8 witness: a JSON 401 response whose body fails to parse validates
as `true`; the same endpoint with a network failure hard-fails. -/
theorem C8_witness :
    validateAPIConfig "https://api.example.com/v1/images/generations" true
        (.resp ⟨401, "application/json", none, ""⟩)
      = (if containsSub "application/json" "text/html" = true then
          Except.error VError.htmlPage
        else .ok true) ∧
    validateAPIConfig "https://api.example.com/v1/images/generations" true .netErr
      = .error .network :=
  C8_reachable_statuses_validate_true "https://api.example.com/v1/images/generations"
    ⟨401, "application/json", none, ""⟩ (by decide) (by decide)
    (Or.inr (Or.inl rfl))

end Storyboard
